import Mathlib

/-!
Shallow embedding of the JumppGuru backend query-resolution pipeline
(`Backend/app/services/orchestrator.py`, `chat_history.py`, `vector_utils.py`,
`web_fallback.py`, `web_scrape.py`, `web_search.py`, `vector_search.py`,
`Backend/app/utils/language_detect.py`).

Python strings are embedded as Lean `String`; Python lists as Lean `List`;
Python `dict` documents as Lean structures; external providers (OpenAI
completion, embedding, SerpApi search, page fetching, the `langdetect`
classifier) as function-valued fields of an `Env` record; raised Python
exceptions as `Except` errors.  Each definition carries a doc comment naming
the source function it embeds.
-/

namespace JumppGuru

/-- The apostrophe character, used to build prompt strings. -/
def apos : String := String.singleton (Char.ofNat 39)

/-- Python slicing `s[:n]` on a string (by code point). -/
def pyTake (s : String) (n : Nat) : String := ⟨s.data.take n⟩

/-- Python `sep.join(l)`. -/
def pyJoin (sep : String) : List String → String
  | [] => ""
  | [s] => s
  | s :: rest => s ++ sep ++ pyJoin sep rest

/-- Python `str.strip()` on a character list: remove leading and trailing
whitespace. -/
def pyStripL (l : List Char) : List Char :=
  ((l.dropWhile fun c => c.isWhitespace).reverse.dropWhile fun c =>
      c.isWhitespace).reverse

/-- Python `str.strip()`: remove leading and trailing whitespace. -/
def pyStrip (s : String) : String := ⟨pyStripL s.data⟩

/-- Python `str.lstrip()`: remove leading whitespace. -/
def pyLStrip (s : String) : String :=
  ⟨s.data.dropWhile fun c => c.isWhitespace⟩

/-- Python `str.split(". ")` on a character list: split at each
(leftmost-first) occurrence of the two-character separator `". "`. -/
def pySplitDotSpaceL : List Char → List (List Char)
  | [] => [[]]
  | '.' :: ' ' :: rest => [] :: pySplitDotSpaceL rest
  | c :: rest =>
    match pySplitDotSpaceL rest with
    | [] => [[c]]
    | s :: ss => (c :: s) :: ss

/-- Python `text.split(". ")`. -/
def pySplitDotSpace (s : String) : List String :=
  (pySplitDotSpaceL s.data).map fun l => ⟨l⟩

/-- Python `str.lower()` (per-character lowering). -/
def pyToLower (s : String) : String := ⟨s.data.map Char.toLower⟩

/-- Splitting a character list at every whitespace character (keeping the
empty pieces between adjacent separators). -/
def pyWordsL : List Char → List (List Char)
  | [] => [[]]
  | c :: rest =>
    if c.isWhitespace then [] :: pyWordsL rest
    else
      match pyWordsL rest with
      | [] => [[c]]
      | s :: ss => (c :: s) :: ss

/-- Python no-argument `str.split()`: split on whitespace runs, dropping
empty tokens. -/
def pyWords (s : String) : List String :=
  ((pyWordsL s.data).map fun l => (⟨l⟩ : String)).filter fun w => !(w == "")

/-- The non-whitespace characters of a string, in order ("modulo whitespace"
view used to compare chunked text with its source text). -/
def nonWS (s : String) : List Char :=
  s.data.filter fun c => !c.isWhitespace

/-- Concatenation of a list of strings, in order. -/
def strConcat : List String → String
  | [] => ""
  | s :: rest => s ++ strConcat rest

/-- A role/content chat message (the `{"role": ..., "content": ...}` dicts). -/
structure Msg where
  role : String
  content : String
  deriving DecidableEq, Repr

/-- The Python exceptions that can surface from the modelled code paths:
`TypeError` from `list + str` concatenation, `TypeError` from subscripting a
`find_one` result that is `None`, and a completion-provider failure. -/
inductive PyErr where
  | listStrConcat
  | noneSubscript
  | llmFailure
  deriving DecidableEq, Repr

/-- Decidable equality for `Except`, used to evaluate the model on
concrete inputs. -/
instance {ε α : Type} [DecidableEq ε] [DecidableEq α] :
    DecidableEq (Except ε α) := fun x y =>
  match x, y with
  | .error a, .error b =>
    if h : a = b then .isTrue (h ▸ rfl)
    else .isFalse fun hh => h ((Except.error.injEq _ _).mp hh)
  | .ok a, .ok b =>
    if h : a = b then .isTrue (h ▸ rfl)
    else .isFalse fun hh => h ((Except.ok.injEq _ _).mp hh)
  | .error _, .ok _ => .isFalse fun hh => Except.noConfusion hh
  | .ok _, .error _ => .isFalse fun hh => Except.noConfusion hh

/-! ## Language detection — `app/utils/language_detect.py` -/

/-- The fixed colloquial-marker list of `detect_language`. -/
def hinglish_keywords : List String :=
  ["kya", "kaise", "hai", "nahi", "mera", "tum", "ke", "ki", "ho", "me",
   "kyunki", "ka", "kb"]

/-- Embeds `detect_language`.  `classify` models the `langdetect.detect`
call (`.error` = the classifier raised).  The Python float comparison
`sum(...)/len(words) > 0.2` is embedded as the exact rational comparison
`5 * matches > len(words)`; the `ZeroDivisionError` raised on an empty token
list is caught by the function's bare `except`, yielding `"english"`. -/
def detect_language (classify : String → Except Unit String)
    (text : String) : String :=
  match classify text with
  | .error _ => "english"
  | .ok lang =>
    if lang = "hi" then
      let words := pyWords (pyToLower text)
      if words.length = 0 then "english"
      else if words.length <
          5 * (words.filter fun w => hinglish_keywords.contains w).length then
        "hinglish"
      else if lang = "en" then "english" else "hinglish"
    else if lang = "en" then "english" else "hinglish"

/-! ## Chat history — `app/services/chat_history.py` -/

/-- The `chat_history` Mongo collection: per-user message list, or `none`
when no document exists for the user. -/
abbrev ChatDB := String → Option (List Msg)

/-- The chat database with no documents. -/
def emptyChatDB : ChatDB := fun _ => none

/-- Embeds `save_message`: `update_one` with `$push` and `upsert=True`
appends the message, creating the document on first write. -/
def save_message (db : ChatDB) (user_id role content : String) : ChatDB :=
  fun u =>
    if u = user_id then some ((db user_id).getD [] ++ [⟨role, content⟩])
    else db u

/-- Python tail slice `l[-limit:]` for an `int` limit: for `limit > 0` it
keeps the last `limit` elements; for `limit = 0` it is `l[0:]`, the whole
list; for `limit < 0` it is `l[(-limit):]`. -/
def pyTailSlice {α : Type} (l : List α) (limit : Int) : List α :=
  if 0 < limit then l.drop (l.length - limit.toNat)
  else if limit = 0 then l
  else l.drop (-limit).toNat

/-- Embeds `get_recent_messages`: `find_one`, `[]` when absent, else
`doc["messages"][-limit:]` projected to role/content pairs. -/
def get_recent_messages (db : ChatDB) (user_id : String) (limit : Int) :
    List Msg :=
  match db user_id with
  | none => []
  | some msgs => (pyTailSlice msgs limit).map fun m => ⟨m.role, m.content⟩

/-- `get_recent_messages` as a state-passing operation, recording that the
underlying `find_one` performs no write on the collection. -/
def get_recent_messages_st (db : ChatDB) (user_id : String) (limit : Int) :
    List Msg × ChatDB :=
  (get_recent_messages db user_id limit, db)

/-- A document of the `multimodal_chat_history` collection. -/
structure MMRecord where
  chat_id : String
  role : String
  text_content : String
  deriving DecidableEq, Repr

/-- `find_one({"chat_id": cid, "role": role})` on the multimodal
collection. -/
def mmFindOne (recs : List MMRecord) (cid role : String) : Option MMRecord :=
  recs.find? fun r => r.chat_id == cid && r.role == role

/-- Embeds `get_assistant_text_by_chat_id`: two `find_one` lookups, then
subscripting `docs1["text_content"]` / `docs["text_content"]`.  When either
lookup returns `None` the subscript raises `TypeError`
(`.error .noneSubscript`). -/
def get_assistant_text_by_chat_id (recs : List MMRecord) (cid : String) :
    Except PyErr (List Msg) :=
  match mmFindOne recs cid "assistant", mmFindOne recs cid "user" with
  | some a, some u =>
      .ok [⟨"user", u.text_content⟩, ⟨"assistant", a.text_content⟩]
  | _, _ => .error .noneSubscript

/-! ## Chunking — `app/services/vector_utils.py` -/

/-- The sentence-packing loop of `chunk_text`, folding over the sentence
list with the current accumulator string. -/
def chunkLoop (maxLen : Nat) : List String → String → List String
  | [], current => if current = "" then [] else [pyStrip current]
  | s :: rest, current =>
    if current.length + s.length < maxLen then
      chunkLoop maxLen rest (current ++ s ++ ". ")
    else
      pyStrip current :: chunkLoop maxLen rest (s ++ ". ")

/-- Embeds `chunk_text`: split on `". "`, greedily pack sentences while
`len(current) + len(sentence) < max_len`, stripping each emitted chunk. -/
def chunk_text (text : String) (maxLen : Nat) : List String :=
  chunkLoop maxLen (pySplitDotSpace text) ""

/-! ## External providers -/

/-- The external providers the pipeline calls, abstracted as functions:
`classify` = `langdetect.detect`; `llm` = `client.chat.completions.create`
(all OpenAI completion calls); `embed` = `get_embedding`; `vectorSearch` =
the Mongo `$search`/`knnBeta` stage (given a query vector and `k`, the
scored results); `serp` = the SerpApi request (`organic_results` link
fields, `.error` = the request raised); `fetch` = the httpx fetch plus
paragraph extraction of `scrape_and_summarize`'s `try` block (`.error` =
network/HTTP/parse failure); `insertOk` / `analyticsOk` = whether the Mongo
inserts succeed. -/
structure Env where
  classify : String → Except Unit String
  llm : List Msg → Except Unit String
  embed : String → Except Unit (List Int)
  vectorSearch : List Int → Nat → List (String × ℚ)
  serp : String → Except Unit (List (Option String))
  fetch : String → Except Unit String
  insertOk : Bool
  analyticsOk : Bool

/-! ## Knowledge retriever — `app/services/vector_search.py` -/

/-- Embeds `query_rag_chunks`: embed the query (an embedding failure
propagates), run the vector search with `k = top_k`, and keep results with
`score >= min_score` (the `$match` stage). -/
def query_rag_chunks (env : Env) (query : String) (top_k : Nat)
    (min_score : ℚ) : Except Unit (List (String × ℚ)) :=
  (env.embed query).map fun v =>
    (env.vectorSearch v top_k).filter fun r => min_score ≤ r.2

/-! ## Web search — `app/services/web_search.py` -/

/-- Embeds `web_search`: on a SerpApi failure the function returns `None`
(bare `return`); otherwise it collects the truthy `link` fields, returning
a (possibly empty) URL list. -/
def web_search (env : Env) (question : String) : Option (List String) :=
  match env.serp question with
  | .error _ => none
  | .ok results =>
      some (results.filterMap fun l =>
        l.bind fun s => if s = "" then none else some s)

/-! ## Scrape and summarize — `app/services/web_scrape.py` -/

/-- Embeds `scrape_and_summarize`: a fetch/parse failure is caught and
yields the empty summary `""`; on success the extracted text is truncated
to 3000 characters and summarized by the completion provider (whose failure
propagates, as it is outside the `try` block). -/
def scrape_and_summarize (env : Env) (url : String) : Except PyErr String :=
  match env.fetch url with
  | .error _ => .ok ""
  | .ok text =>
      let text := pyTake text 3000
      match env.llm
        [⟨"system", "You" ++ apos ++ "re a summarizer."⟩,
         ⟨"user", "Summarize the following article in simple points:\n\n"
            ++ text⟩] with
      | .error _ => .error .llmFailure
      | .ok summary => .ok summary

/-- The `asyncio.gather` over `scrape_and_summarize`: all per-URL results
in original order; the first raised exception (if any) propagates. -/
def gather_summaries (env : Env) : List String → Except PyErr (List String)
  | [] => .ok []
  | u :: us =>
    match scrape_and_summarize env u with
    | .error e => .error e
    | .ok s => (gather_summaries env us).map fun rest => s :: rest

/-! ## Re-indexing — `app/services/vector_utils.py` -/

/-- A document inserted into the `rag_chunks` collection by
`chunk_and_store_summary` (the constant metadata fields — content type
`"web_summary"`, confidence `0.8`, subject `"general"` — are omitted). -/
structure ChunkDoc where
  text : String
  embedding : List Int
  query : String
  origin_url : String
  deriving DecidableEq, Repr

/-- Embeds `chunk_and_store_summary`, returning the documents that end up
stored: per-chunk embedding failures are caught and skip the chunk; an
`insert_many` failure is caught and stores nothing.  No failure here ever
propagates. -/
def chunk_and_store_summary (env : Env) (summary query source_url : String) :
    List ChunkDoc :=
  let chunks := chunk_text summary 300
  if chunks.isEmpty then []
  else
    let documents := chunks.filterMap fun c =>
      (env.embed c).toOption.map fun v => ⟨c, v, query, source_url⟩
    if documents.isEmpty then [] else if env.insertOk then documents else []

/-! ## Web resolver — `app/services/web_fallback.py` -/

/-- The fixed short-circuit response of `web_fallback_answer` when the
search step yields no URLs. -/
def nothing_found_message : String :=
  "Sorry, I couldn" ++ apos ++ "t find anything useful on the web."

/-- Observable record of one `web_fallback_answer` run: the URLs handed to
the scrape fan-out, the aggregated context (when the run got that far), the
chunks stored by re-indexing, and the final completion calls made. -/
structure WebTrace where
  scraped : List String
  context : Option String
  stored : List ChunkDoc
  finalCalls : List (List Msg)
  deriving DecidableEq, Repr

/-- Embeds `web_fallback_answer`: search; short-circuit on a falsy URL
list; gather scrape+summarize over all URLs; keep summaries with non-empty
`strip()`; join with `"\n\n"` and truncate to 7000 characters; re-index;
answer from the context plus history plus query. -/
def web_fallback_answer (env : Env) (query : String) (history : List Msg) :
    Except PyErr String × WebTrace :=
  match web_search env query with
  | none => (.ok nothing_found_message, ⟨[], none, [], []⟩)
  | some urls =>
    if urls.isEmpty then (.ok nothing_found_message, ⟨[], none, [], []⟩)
    else
      match gather_summaries env urls with
      | .error e => (.error e, ⟨urls, none, [], []⟩)
      | .ok summaries0 =>
        let summaries := summaries0.filter fun s => !(pyStrip s == "")
        let context := pyTake (pyJoin "\n\n" summaries) 7000
        let stored := chunk_and_store_summary env context query
          (toString urls)
        let messages :=
          ⟨"system", "You" ++ apos ++ "re a helpful educational assistant."⟩
            :: history ++
          [⟨"user", "Use the following web content to answer the user"
              ++ apos ++ "s question:\n\n" ++ context ++ "\n\nQuestion: "
              ++ query⟩]
        match env.llm messages with
        | .error _ =>
            (.error .llmFailure, ⟨urls, some context, stored, [messages]⟩)
        | .ok answer =>
            (.ok answer, ⟨urls, some context, stored, [messages]⟩)

/-! ## Orchestrator — `app/services/orchestrator.py` -/

/-- The `QueryRequest` payload fields the orchestrator reads
(`app/models/schema.py`). -/
structure Payload where
  page : Int
  query : String
  user_id : String
  chat_id : Option String
  lang : Option String
  mode : Option String
  deriving DecidableEq, Repr

/-- A Python value that is either a message list or a string — the dynamic
type of `additional_history` in `handle_user_query` (`""` when no chat id
is supplied, a list otherwise). -/
inductive PyListOrStr where
  | list (l : List Msg)
  | str (s : String)
  deriving DecidableEq, Repr

/-- The formatted system prompt of `generate_llm_response`:
`prompt_values.get(user_lang, prompt_values["english"])` substituted into
the teacher template. -/
def orchestrator_system_prompt (user_lang : String) : String :=
  let v : String × String :=
    if user_lang = "hinglish" then ("Hinglish", "Hinglish")
    else ("Indian", "English")
  "You are a friendly " ++ v.1 ++
    " teacher. Given a user question, return a short, clear, friendly answer in "
    ++ v.2 ++
    " in 3–4 sentences. Use conversational, easy-to-understand tone. Avoid technical jargon."

/-- Embeds `generate_llm_response`, returning the completion calls it made
together with its result.  `messages = [system] + history +
additional_history + [user]`: when `additional_history` is a string the
list-plus-string concatenation raises `TypeError` before any completion
call. -/
def generate_llm_response (env : Env) (query user_lang : String)
    (history : List Msg) (additional : PyListOrStr) :
    List (List Msg) × Except PyErr String :=
  match additional with
  | .str _ => ([], .error .listStrConcat)
  | .list add =>
    let messages :=
      ⟨"system", orchestrator_system_prompt user_lang⟩
        :: history ++ add ++ [⟨"user", query⟩]
    ([messages], (env.llm messages).mapError fun _ => .llmFailure)

/-- One page of the response body (`PageContent`; the constant
`audio=None`/`quizzes=[]` fields are omitted). -/
structure PageContent where
  script : String
  image_prompts : List String
  deriving DecidableEq, Repr

/-- The orchestrator's `QueryResponse`. -/
structure QueryResponseM where
  source : String
  language : String
  lesson : List PageContent
  deriving DecidableEq, Repr

/-- A document of the analytics collection (`mongo_collection.insert_one`). -/
structure AnalyticsRec where
  user_id : String
  query : String
  response : String
  language : String
  source : String
  deriving DecidableEq, Repr

/-- Observable record of one `handle_user_query` run: every completion call
made by `generate_llm_response`, the number of `query_rag_chunks` and
`web_fallback_answer` invocations, and the analytics documents written. -/
structure OrchTrace where
  llmCalls : List (List Msg)
  ragCalls : Nat
  webCalls : Nat
  analytics : List AnalyticsRec
  deriving DecidableEq, Repr

/-- The orchestrator's `user_lang` local: `payload.lang or
detect_language(query)`, then re-detected when the value is `"auto"`
(Python `or` treats the empty string as falsy). -/
def resolve_user_lang (env : Env) (payload : Payload) : String :=
  let lang0 :=
    match payload.lang with
    | none => detect_language env.classify payload.query
    | some l =>
      if l = "" then detect_language env.classify payload.query else l
  if lang0 = "auto" then detect_language env.classify payload.query else lang0

/-- The orchestrator's `chat_id` local: `payload.chat_id or None`. -/
def resolve_chat_id (payload : Payload) : Option String :=
  match payload.chat_id with
  | none => none
  | some c => if c = "" then none else some c

/-- The orchestrator's `additional_history` local: the chat-id lookup when
a chat id is supplied, the empty string otherwise. -/
def resolve_additional (mm : List MMRecord) (payload : Payload) :
    Except PyErr PyListOrStr :=
  match resolve_chat_id payload with
  | none => .ok (.str "")
  | some c => (get_assistant_text_by_chat_id mm c).map .list

/-- Embeds `handle_user_query`: resolve the language, load history, build
`additional_history` from the chat id (or `""`), call
`generate_llm_response` with `source = "LLM"` (the retrieval/web routing in
the source is commented out), save both turns, write the analytics record
best-effort, and return the response.  Returns the caller-visible result,
the updated chat store, and the run's trace. -/
def handle_user_query (env : Env) (db : ChatDB) (mm : List MMRecord)
    (payload : Payload) : Except PyErr QueryResponseM × ChatDB × OrchTrace :=
  match resolve_additional mm payload with
  | .error e => (.error e, db, ⟨[], 0, 0, []⟩)
  | .ok additional =>
    match generate_llm_response env payload.query
      (resolve_user_lang env payload)
      (get_recent_messages db payload.user_id 10) additional with
    | (calls, .error e) => (.error e, db, ⟨calls, 0, 0, []⟩)
    | (calls, .ok script) =>
      let db1 := save_message db payload.user_id "user" payload.query
      let db2 := save_message db1 payload.user_id "assistant" script
      let analytics : List AnalyticsRec :=
        if env.analyticsOk then
          [⟨payload.user_id, payload.query, script,
            resolve_user_lang env payload, "LLM"⟩]
        else []
      (.ok ⟨"LLM", resolve_user_lang env payload, [⟨script, ["concept"]⟩]⟩,
       db2, ⟨calls, 0, 0, analytics⟩)

/-! ## Concrete fixtures for counterexamples and witnesses -/

/-- An environment whose providers all succeed and whose vector search
returns no results (the retriever finds zero chunks). -/
def envNoChunks : Env where
  classify := fun _ => .ok "en"
  llm := fun _ => .ok "I am a helpful answer."
  embed := fun _ => .ok []
  vectorSearch := fun _ _ => []
  serp := fun _ => .ok []
  fetch := fun _ => .error ()
  insertOk := true
  analyticsOk := true

/-- An environment identical to `envNoChunks` except that the vector search
returns one chunk scoring `0.85`, above the `0.6` threshold. -/
def envOneChunk : Env where
  classify := fun _ => .ok "en"
  llm := fun _ => .ok "I am a helpful answer."
  embed := fun _ => .ok []
  vectorSearch := fun _ _ => [("Photosynthesis converts light into sugar.", (85 : ℚ) / 100)]
  serp := fun _ => .ok []
  fetch := fun _ => .error ()
  insertOk := true
  analyticsOk := true

/-- A multimodal chat collection holding the user and assistant records for
chat id `"c1"`. -/
def mmC1 : List MMRecord :=
  [⟨"c1", "assistant", "Earlier answer text."⟩,
   ⟨"c1", "user", "Earlier question text."⟩]

/-- A request that supplies chat id `"c1"` (so that the run completes). -/
def payloadWithChat : Payload :=
  ⟨1, "Explain photosynthesis in detail", "u1", some "c1",
   some "english", some "general"⟩

/-- A request that supplies no chat id. -/
def payloadNoChat : Payload :=
  ⟨1, "hello", "u1", none, some "english", some "general"⟩

/-- An environment for the web-resolver runs: the search yields three URLs,
the fetch of `"u2"` fails, the other fetches and all completion and
embedding calls succeed. -/
def envWeb : Env where
  classify := fun _ => .ok "en"
  llm := fun _ => .ok "Summary text."
  embed := fun _ => .ok [1]
  vectorSearch := fun _ _ => []
  serp := fun _ => .ok [some "u1", some "u2", some "u3"]
  fetch := fun u => if u = "u2" then .error () else .ok "Page body."
  insertOk := true
  analyticsOk := true

/-- An environment whose SerpApi request fails. -/
def envSerpFail : Env where
  classify := fun _ => .ok "en"
  llm := fun _ => .ok "I am a helpful answer."
  embed := fun _ => .ok []
  vectorSearch := fun _ _ => []
  serp := fun _ => .error ()
  fetch := fun _ => .error ()
  insertOk := true
  analyticsOk := true

/-! ## Helper lemmas -/

theorem dropWhile_length_le {α : Type} (p : α → Bool) (l : List α) :
    (l.dropWhile p).length ≤ l.length := by
  induction l with
  | nil => simp
  | cons a l ih =>
    rw [List.dropWhile_cons]
    by_cases h : p a = true
    · simp only [h, if_true]
      exact Nat.le_trans ih (Nat.le_succ _)
    · simp [h]

theorem filter_not_dropWhile {α : Type} (p : α → Bool) (l : List α) :
    (l.dropWhile p).filter (fun a => !p a) = l.filter (fun a => !p a) := by
  induction l with
  | nil => simp
  | cons a l ih =>
    rw [List.dropWhile_cons]
    by_cases h : p a = true
    · simp [h, ih, List.filter_cons]
    · simp [h, List.filter_cons]

theorem pyStripL_filter (l : List Char) :
    (pyStripL l).filter (fun c => !c.isWhitespace) =
      l.filter (fun c => !c.isWhitespace) := by
  unfold pyStripL
  rw [List.filter_reverse, filter_not_dropWhile, List.filter_reverse,
    List.reverse_reverse, filter_not_dropWhile]

theorem pyStripL_length_le (l : List Char) :
    (pyStripL l).length ≤ l.length := by
  unfold pyStripL
  rw [List.length_reverse]
  exact Nat.le_trans (dropWhile_length_le _ _)
    (by rw [List.length_reverse]; exact dropWhile_length_le _ _)

theorem pyStripL_append_blank (l : List Char) :
    pyStripL (l ++ [' ']) = pyStripL l := by
  unfold pyStripL
  rw [List.dropWhile_append]
  by_cases h : (l.dropWhile fun c => c.isWhitespace).isEmpty
  · have h' : l.dropWhile (fun c => c.isWhitespace) = [] := by
      simpa [List.isEmpty_iff] using h
    have h2 : List.dropWhile (fun c => c.isWhitespace) [' '] = [] := by decide
    simp [h, h', h2]
  · simp only [h, if_false, Bool.false_eq_true]
    rw [List.reverse_append]
    simp [List.dropWhile_cons]

theorem pyStripL_append_dot_blank (l : List Char) :
    pyStripL (l ++ ['.', ' ']) =
      (l.dropWhile fun c => c.isWhitespace) ++ ['.'] := by
  unfold pyStripL
  rw [List.dropWhile_append]
  by_cases h : (l.dropWhile fun c => c.isWhitespace).isEmpty
  · have h' : l.dropWhile (fun c => c.isWhitespace) = [] := by
      simpa [List.isEmpty_iff] using h
    have h2 : List.dropWhile (fun c => c.isWhitespace) ['.', ' '] = ['.', ' '] := by
      decide
    simp [h, h', h2, List.dropWhile_cons]
  · simp only [h, if_false, Bool.false_eq_true]
    rw [List.reverse_append]
    simp [List.dropWhile_cons]

theorem nonWS_empty : nonWS "" = [] := rfl

theorem nonWS_append (a b : String) : nonWS (a ++ b) = nonWS a ++ nonWS b := by
  simp [nonWS, String.data_append, List.filter_append]

theorem nonWS_pyStrip (s : String) : nonWS (pyStrip s) = nonWS s := by
  show (pyStripL s.data).filter (fun c => !c.isWhitespace) =
    s.data.filter (fun c => !c.isWhitespace)
  exact pyStripL_filter s.data

theorem blank_data : (" " : String).data = [' '] := rfl

theorem dot_blank_data : (". " : String).data = ['.', ' '] := rfl

theorem pyStrip_append_blank (s : String) : pyStrip (s ++ " ") = pyStrip s := by
  show (⟨pyStripL (s ++ " ").data⟩ : String) = ⟨pyStripL s.data⟩
  rw [String.data_append, blank_data, pyStripL_append_blank]

theorem pyStrip_sentence (s : String) :
    pyStrip (s ++ ". ") = pyLStrip s ++ "." := by
  show (⟨pyStripL (s ++ ". ").data⟩ : String) =
    (⟨s.data.dropWhile fun c => c.isWhitespace⟩ : String) ++ "."
  rw [String.data_append, dot_blank_data, pyStripL_append_dot_blank]
  rfl

theorem pyStrip_length_le (s : String) : (pyStrip s).length ≤ s.length := by
  show (pyStripL s.data).length ≤ s.data.length
  exact pyStripL_length_le s.data

theorem pyLStrip_length_le (s : String) : (pyLStrip s).length ≤ s.length := by
  show (s.data.dropWhile fun c => c.isWhitespace).length ≤ s.data.length
  exact dropWhile_length_le _ s.data

theorem dot_blank_split : (". " : String) = "." ++ " " := rfl

/-- Whenever `chunkLoop` flushes its accumulator, the emitted chunk either
fits the budget or is a single over-length sentence of `S` (left-stripped,
with its final period). -/
theorem flush_good (M : Nat) (S : List String) (cur : String)
    (hinv : cur = "" ∨ (∃ s ∈ S, cur = s ++ ". ") ∨
      (∃ pre : String, cur = pre ++ " " ∧ cur.length ≤ M + 1)) :
    (pyStrip cur).length ≤ M ∨
      ∃ s ∈ S, pyStrip cur = pyLStrip s ++ "." ∧ M ≤ s.length := by
  rcases hinv with rfl | ⟨s, hs, rfl⟩ | ⟨pre, rfl, hlen⟩
  · left
    exact Nat.zero_le M
  · rw [pyStrip_sentence]
    by_cases hle : (pyLStrip s ++ ".").length ≤ M
    · exact Or.inl hle
    · refine Or.inr ⟨s, hs, rfl, ?_⟩
      have h1 : (pyLStrip s ++ ".").length = (pyLStrip s).length + 1 := by
        rw [String.length_append]
        rfl
      have h2 := pyLStrip_length_le s
      omega
  · left
    rw [pyStrip_append_blank]
    have h1 : (pre ++ " ").length = pre.length + 1 := by
      rw [String.length_append]
      rfl
    have h2 := pyStrip_length_le pre
    omega

/-- Every chunk emitted by `chunkLoop` from a valid accumulator fits the
budget or is a single over-length sentence. -/
theorem chunkLoop_bound (M : Nat) (S : List String) :
    ∀ (ss : List String) (cur : String), (∀ x ∈ ss, x ∈ S) →
      (cur = "" ∨ (∃ s ∈ S, cur = s ++ ". ") ∨
        (∃ pre : String, cur = pre ++ " " ∧ cur.length ≤ M + 1)) →
      ∀ c ∈ chunkLoop M ss cur,
        c.length ≤ M ∨ ∃ s ∈ S, c = pyLStrip s ++ "." ∧ M ≤ s.length := by
  intro ss
  induction ss with
  | nil =>
    intro cur _ hinv c hc
    rw [chunkLoop] at hc
    by_cases h : cur = ""
    · simp [h] at hc
    · simp only [h, if_false] at hc
      rcases List.mem_singleton.mp hc with rfl
      exact flush_good M S cur hinv
  | cons s rest ih =>
    intro cur hss hinv c hc
    rw [chunkLoop] at hc
    by_cases hlt : cur.length + s.length < M
    · simp only [hlt, if_true] at hc
      refine ih (cur ++ s ++ ". ") (fun x hx => hss x (List.mem_cons_of_mem s hx))
        (Or.inr (Or.inr ⟨cur ++ s ++ ".", ?_, ?_⟩)) c hc
      · rw [dot_blank_split, ← String.append_assoc]
      · rw [String.length_append, String.length_append]
        have : (". " : String).length = 2 := rfl
        omega
    · simp only [hlt, if_false] at hc
      rcases List.mem_cons.mp hc with rfl | hc'
      · exact flush_good M S cur hinv
      · exact ih (s ++ ". ") (fun x hx => hss x (List.mem_cons_of_mem s hx))
          (Or.inr (Or.inl ⟨s, hss s (List.mem_cons_self s rest), rfl⟩)) c hc'

/-- Concatenating the chunks produced by `chunkLoop` reproduces, modulo
whitespace, the accumulator followed by the remaining sentences each with
their `". "` separator. -/
theorem chunkLoop_nws (M : Nat) :
    ∀ (ss : List String) (cur : String),
      nonWS (strConcat (chunkLoop M ss cur)) =
        nonWS cur ++ nonWS (strConcat (ss.map fun s => s ++ ". ")) := by
  intro ss
  induction ss with
  | nil =>
    intro cur
    by_cases h : cur = ""
    · simp [chunkLoop, h, strConcat, nonWS_empty]
    · simp [chunkLoop, h, strConcat, nonWS_append, nonWS_pyStrip, nonWS_empty]
  | cons s rest ih =>
    intro cur
    rw [chunkLoop]
    by_cases hlt : cur.length + s.length < M
    · simp only [hlt, if_true]
      rw [ih]
      simp [strConcat, nonWS_append, List.append_assoc]
    · simp only [hlt, if_false]
      simp only [strConcat, List.map_cons]
      rw [nonWS_append, ih, nonWS_pyStrip, nonWS_append]
      simp [nonWS_append, List.append_assoc]

/-! ## Claim theorems -/

/-- Claim C4: for every input text and max chunk size `M`, `chunk_text`
produces chunks such that no chunk exceeds `M` characters unless it is a
single over-length sentence (left-stripped, with its final period), and the
concatenation of all chunks in order reproduces, modulo whitespace, the
original sentence sequence with the `". "` separators restored. -/
theorem chunk_text_spec (text : String) (M : Nat) :
    (∀ c ∈ chunk_text text M,
        c.length ≤ M ∨
          ∃ s ∈ pySplitDotSpace text, c = pyLStrip s ++ "." ∧ M ≤ s.length)
    ∧ nonWS (strConcat (chunk_text text M)) =
        nonWS (strConcat ((pySplitDotSpace text).map fun s => s ++ ". ")) := by
  constructor
  · intro c hc
    exact chunkLoop_bound M (pySplitDotSpace text) (pySplitDotSpace text) ""
      (fun x h => h) (Or.inl rfl) c hc
  · have h := chunkLoop_nws M (pySplitDotSpace text) ""
    simpa [chunk_text, nonWS_empty] using h

/-- Witness for C4 at the concrete text `"ab. cd"` with budget 4. -/
theorem chunk_text_spec_witness :
    ("ab." ∈ chunk_text "ab. cd" 4) ∧
      (("ab." : String).length ≤ 4 ∨
        ∃ s ∈ pySplitDotSpace "ab. cd",
          "ab." = pyLStrip s ++ "." ∧ 4 ≤ s.length) :=
  ⟨by decide, (chunk_text_spec "ab. cd" 4).1 "ab." (by decide)⟩

/-- Claim C6: `detect_language` is total into `{english, hinglish}`;
classifier failure yields `"english"`; classifier tag `"hi"` with a
colloquial-marker token fraction above `0.2` yields `"hinglish"`. -/
theorem detect_language_spec (classify : String → Except Unit String)
    (text : String) :
    (detect_language classify text = "english" ∨
      detect_language classify text = "hinglish")
    ∧ (∀ e : Unit, classify text = .error e →
        detect_language classify text = "english")
    ∧ (classify text = .ok "hi" →
        (pyWords (pyToLower text)).length <
          5 * ((pyWords (pyToLower text)).filter fun w =>
            hinglish_keywords.contains w).length →
        detect_language classify text = "hinglish") := by
  refine ⟨?_, ?_, ?_⟩
  · unfold detect_language
    cases h : classify text with
    | error e => exact Or.inl rfl
    | ok lang =>
      by_cases h1 : lang = "hi"
      · subst h1
        simp only [if_pos rfl]
        by_cases h2 : (pyWords (pyToLower text)).length = 0
        · simp [h2]
        · by_cases h3 : (pyWords (pyToLower text)).length <
            5 * ((pyWords (pyToLower text)).filter fun w =>
              hinglish_keywords.contains w).length
          · simp [h2, h3]
          · simp [h2, h3]
      · by_cases h4 : lang = "en"
        · simp [h1, h4]
        · simp [h1, h4]
  · intro e he
    unfold detect_language
    rw [he]
  · intro h hratio
    have hne : (pyWords (pyToLower text)).length ≠ 0 := by
      intro h0
      have hfl := List.length_filter_le
        (fun w => hinglish_keywords.contains w) (pyWords (pyToLower text))
      omega
    unfold detect_language
    rw [h]
    simp [hne, hratio]

/-- Witness for C6: classifier answers `"hi"` on `"Kya hai"` and both
tokens are colloquial markers, so the result is `"hinglish"`. -/
theorem detect_language_spec_witness :
    ((pyWords (pyToLower "Kya hai")).length <
      5 * ((pyWords (pyToLower "Kya hai")).filter fun w =>
        hinglish_keywords.contains w).length)
    ∧ detect_language (fun _ => Except.ok "hi") "Kya hai" = "hinglish" :=
  ⟨by decide,
   (detect_language_spec (fun _ => Except.ok "hi") "Kya hai").2.2 rfl (by decide)⟩

/-- Counterexample for C7: after one `save_message`, `get_recent_messages`
with `limit = 0` returns the whole one-element history (the Python slice
`msgs[-0:]` is `msgs[0:]`), exceeding the limit of 0 turns. -/
theorem get_recent_messages_limit_zero_cex :
    get_recent_messages (save_message emptyChatDB "u1" "user" "hi") "u1" 0 =
      [⟨"user", "hi"⟩]
    ∧ ¬((get_recent_messages (save_message emptyChatDB "u1" "user" "hi")
          "u1" 0).length ≤ 0) := by
  constructor
  · rfl
  · decide

/-- Claim C7 (amended to limits `≥ 1`): `get_recent_messages` returns at
most `limit` turns — the last turns of the stored conversation, in original
order — and the empty sequence when no record exists. -/
theorem get_recent_messages_amended (db : ChatDB) (uid : String)
    (limit : Int) (h : 1 ≤ limit) :
    (get_recent_messages db uid limit).length ≤ limit.toNat
    ∧ (∀ msgs, db uid = some msgs →
        get_recent_messages db uid limit =
          (msgs.drop (msgs.length - limit.toNat)).map fun m =>
            ⟨m.role, m.content⟩)
    ∧ (db uid = none → get_recent_messages db uid limit = []) := by
  have h0 : (0 : Int) < limit := lt_of_lt_of_le one_pos h
  refine ⟨?_, ?_, ?_⟩
  · unfold get_recent_messages
    cases hd : db uid with
    | none => simp
    | some msgs =>
      simp only [pyTailSlice, if_pos h0, List.length_map, List.length_drop]
      omega
  · intro msgs hd
    unfold get_recent_messages
    simp only [hd, pyTailSlice, if_pos h0]
  · intro hd
    unfold get_recent_messages
    simp only [hd]

/-- Witness for C7's amended theorem at `limit = 2` over a one-message
store. -/
theorem get_recent_messages_amended_witness :
    ((1 : Int) ≤ 2)
    ∧ (get_recent_messages (save_message emptyChatDB "u1" "user" "hi")
        "u1" 2).length ≤ (2 : Int).toNat :=
  ⟨by decide,
   (get_recent_messages_amended (save_message emptyChatDB "u1" "user" "hi")
     "u1" 2 (by decide)).1⟩

/-- Claim C8: `save_message` followed by `get_recent_messages(uid, 1)`
returns exactly the saved turn (so its last element's content is the saved
content), and a read leaves the store unchanged, so two consecutive reads
with no intervening writes return the same sequence. -/
theorem chat_history_round_trip_spec (db : ChatDB)
    (uid role content : String) (limit : Int) :
    get_recent_messages (save_message db uid role content) uid 1 =
      [⟨role, content⟩]
    ∧ (get_recent_messages_st db uid limit).1 =
        (get_recent_messages_st
          (get_recent_messages_st db uid limit).2 uid limit).1
    ∧ (get_recent_messages_st db uid limit).2 = db := by
  refine ⟨?_, rfl, rfl⟩
  have key : pyTailSlice ((db uid).getD [] ++ [(⟨role, content⟩ : Msg)]) 1 =
      [⟨role, content⟩] := by
    have h2 : ((db uid).getD [] ++ [(⟨role, content⟩ : Msg)]).length -
        (1 : Int).toNat = ((db uid).getD []).length := by
      rw [List.length_append]
      rfl
    simp only [pyTailSlice, if_pos (one_pos : (0 : Int) < 1), h2,
      List.drop_left]
  unfold get_recent_messages save_message
  simp [key]

/-- Claim C10: when either the assistant or the user record is missing for
a chat id, `get_assistant_text_by_chat_id` raises (subscripting `None`),
and a `handle_user_query` call supplying that chat id fails before any
completion call is made or any state is written. -/
theorem missing_chat_record_raises (env : Env) (db : ChatDB)
    (mm : List MMRecord) (payload : Payload) (cid : String)
    (hc : payload.chat_id = some cid) (hne : cid ≠ "")
    (hmiss : mmFindOne mm cid "assistant" = none ∨
      mmFindOne mm cid "user" = none) :
    get_assistant_text_by_chat_id mm cid = .error .noneSubscript
    ∧ (handle_user_query env db mm payload).1 = .error .noneSubscript
    ∧ (handle_user_query env db mm payload).2.2.llmCalls = []
    ∧ (handle_user_query env db mm payload).2.1 = db := by
  have hga : get_assistant_text_by_chat_id mm cid = .error .noneSubscript := by
    unfold get_assistant_text_by_chat_id
    rcases hmiss with hm | hm
    · cases hu : mmFindOne mm cid "user" <;> simp [hm, hu]
    · cases ha : mmFindOne mm cid "assistant" <;> simp [hm, ha]
  refine ⟨hga, ?_, ?_, ?_⟩ <;>
    simp [handle_user_query, resolve_additional, resolve_chat_id, hc, hne,
      hga, Except.map]

/-- Witness for C10: an empty multimodal collection and chat id `"c1"`. -/
theorem missing_chat_record_raises_witness :
    (payloadWithChat.chat_id = some "c1") ∧ ("c1" : String) ≠ "" ∧
    mmFindOne ([] : List MMRecord) "c1" "assistant" = none ∧
    (handle_user_query envNoChunks emptyChatDB [] payloadWithChat).1 =
      .error .noneSubscript :=
  ⟨rfl, by decide, rfl,
   (missing_chat_record_raises envNoChunks emptyChatDB [] payloadWithChat
     "c1" rfl (by decide) (Or.inl rfl)).2.1⟩

/-- Claim C9: when the search provider fails or returns no URLs,
`web_fallback_answer` returns the fixed "nothing found" message as a normal
result, scraping nothing, storing nothing and making no completion call. -/
theorem web_search_empty_short_circuit (env : Env) (query : String)
    (hist : List Msg)
    (h : env.serp query = .error () ∨ web_search env query = some []) :
    web_fallback_answer env query hist =
      (.ok nothing_found_message, ⟨[], none, [], []⟩) := by
  have hw : web_search env query = none ∨ web_search env query = some [] := by
    rcases h with h | h
    · left
      unfold web_search
      rw [h]
    · exact Or.inr h
  unfold web_fallback_answer
  rcases hw with h | h <;> simp [h]

/-- Witness for C9: the environment whose SerpApi request fails. -/
theorem web_search_empty_short_circuit_witness :
    (envSerpFail.serp "q" = .error ()) ∧
    web_fallback_answer envSerpFail "q" [] =
      (.ok nothing_found_message, ⟨[], none, [], []⟩) :=
  ⟨rfl, web_search_empty_short_circuit envSerpFail "q" [] (Or.inl rfl)⟩

/-- A successful gather yields one summary per URL, in order, each produced
by `scrape_and_summarize` on its URL. -/
theorem gather_summaries_ok (env : Env) :
    ∀ (urls sums : List String),
      gather_summaries env urls = .ok sums →
      sums.length = urls.length ∧
        ∀ p ∈ urls.zip sums, scrape_and_summarize env p.1 = .ok p.2 := by
  intro urls
  induction urls with
  | nil =>
    intro sums h
    simp [gather_summaries] at h
    subst h
    simp
  | cons u us ih =>
    intro sums h
    unfold gather_summaries at h
    cases hs : scrape_and_summarize env u with
    | error e =>
      rw [hs] at h
      simp at h
    | ok s =>
      rw [hs] at h
      cases hg : gather_summaries env us with
      | error e =>
        rw [hg] at h
        simp [Except.map] at h
      | ok rest =>
        rw [hg] at h
        simp [Except.map] at h
        obtain ⟨hlen, hall⟩ := ih rest hg
        subst h
        refine ⟨by simp [hlen], ?_⟩
        intro p hp
        rcases List.mem_cons.mp hp with rfl | hp'
        · exact hs
        · exact hall p hp'

/-- `scrape_and_summarize` turns a fetch failure into the empty summary. -/
theorem scrape_fetch_error (env : Env) (u : String)
    (h : env.fetch u = .error ()) :
    scrape_and_summarize env u = .ok "" := by
  unfold scrape_and_summarize
  rw [h]

/-- Claim C5: in the scrape-and-summarize fan-out, a fetch failure on one
URL yields the empty summary for that URL without failing the others, and
the final context is the `"\n\n"`-join of exactly the summaries with
non-empty `strip()`, in original URL order, truncated to 7000
characters. -/
theorem web_fallback_fanout_spec (env : Env) (query : String)
    (hist : List Msg) (urls sums : List String)
    (hs : web_search env query = some urls) (hne : urls ≠ [])
    (hg : gather_summaries env urls = .ok sums) :
    (web_fallback_answer env query hist).2.context =
      some (pyTake (pyJoin "\n\n"
        (sums.filter fun s => !(pyStrip s == ""))) 7000)
    ∧ sums.length = urls.length
    ∧ (∀ p ∈ urls.zip sums, env.fetch p.1 = .error () → p.2 = "")
    ∧ (∀ u : String, env.fetch u = .error () →
        scrape_and_summarize env u = .ok "") := by
  obtain ⟨hlen, hall⟩ := gather_summaries_ok env urls sums hg
  refine ⟨?_, hlen, ?_, fun u hu => scrape_fetch_error env u hu⟩
  · unfold web_fallback_answer
    rw [hs]
    have hemp : urls.isEmpty = false := by
      cases urls with
      | nil => exact absurd rfl hne
      | cons a l => rfl
    simp only [hemp, Bool.false_eq_true, if_false, hg]
    cases env.llm _ <;> rfl
  · intro p hp hf
    have h1 := hall p hp
    rw [scrape_fetch_error env p.1 hf] at h1
    exact ((Except.ok.injEq _ _).mp h1).symm

/-- Witness for C5: three URLs of which the second fetch fails. -/
theorem web_fallback_fanout_spec_witness :
    (web_search envWeb "q" = some ["u1", "u2", "u3"]) ∧
    (gather_summaries envWeb ["u1", "u2", "u3"] =
      .ok ["Summary text.", "", "Summary text."]) ∧
    (web_fallback_answer envWeb "q" []).2.context =
      some (pyTake (pyJoin "\n\n"
        ((["Summary text.", "", "Summary text."]).filter fun s =>
          !(pyStrip s == ""))) 7000) :=
  ⟨by decide, by decide,
   (web_fallback_fanout_spec envWeb "q" [] ["u1", "u2", "u3"]
     ["Summary text.", "", "Summary text."] (by decide) (by decide)
     (by decide)).1⟩

/-- `handle_user_query` never invokes the knowledge retriever or the web
resolver on any input (the routing to them is commented out in the
source). -/
theorem handle_counts (env : Env) (db : ChatDB) (mm : List MMRecord)
    (payload : Payload) :
    (handle_user_query env db mm payload).2.2.ragCalls = 0
    ∧ (handle_user_query env db mm payload).2.2.webCalls = 0 := by
  unfold handle_user_query
  constructor <;> (split <;> try rfl) <;> (split <;> rfl)

/-- Claim C1 (code bug): a request supplying no chat id fails with the
`list + str` `TypeError` raised while building the completion messages,
before any completion call is made — even though the completion provider of
this environment succeeds on every message list. -/
theorem no_chat_id_request_type_error :
    (handle_user_query envNoChunks emptyChatDB mmC1 payloadNoChat).1 =
      .error .listStrConcat
    ∧ (handle_user_query envNoChunks emptyChatDB mmC1 payloadNoChat).2.2.llmCalls = []
    ∧ ∀ msgs : List Msg, envNoChunks.llm msgs = .ok "I am a helpful answer." :=
  ⟨by decide, by decide, fun _ => rfl⟩

/-- Counterexample for C2: an environment whose knowledge retriever returns
zero chunks, on which a completed `handle_user_query` run invokes the web
resolver zero times, not once. -/
theorem web_resolver_not_invoked_cex :
    query_rag_chunks envNoChunks "Explain photosynthesis in detail" 10
        ((6 : ℚ) / 10) = .ok []
    ∧ (handle_user_query envNoChunks emptyChatDB mmC1 payloadWithChat).1 =
        .ok ⟨"LLM", "english", [⟨"I am a helpful answer.", ["concept"]⟩]⟩
    ∧ (handle_user_query envNoChunks emptyChatDB mmC1
        payloadWithChat).2.2.webCalls = 0
    ∧ ¬((handle_user_query envNoChunks emptyChatDB mmC1
        payloadWithChat).2.2.webCalls = 1) :=
  ⟨by decide, by decide, by decide, by decide⟩

/-- Claim C2 (amended): the orchestrator invokes the web resolver zero
times (and the knowledge retriever zero times) on every request, whatever
the retriever would return. -/
theorem web_resolver_never_invoked (env : Env) (db : ChatDB)
    (mm : List MMRecord) (payload : Payload) :
    (handle_user_query env db mm payload).2.2.webCalls = 0
    ∧ (handle_user_query env db mm payload).2.2.ragCalls = 0 :=
  ⟨(handle_counts env db mm payload).2, (handle_counts env db mm payload).1⟩

/-- Counterexample for C3: an environment whose knowledge retriever returns
one chunk scoring `0.85` (above the `0.6` threshold), on which the
completed run's source label is `"LLM"`, not `"RAG"`. -/
theorem rag_source_label_cex :
    query_rag_chunks envOneChunk "Explain photosynthesis in detail" 10
        ((6 : ℚ) / 10) =
      .ok [("Photosynthesis converts light into sugar.", (85 : ℚ) / 100)]
    ∧ (handle_user_query envOneChunk emptyChatDB mmC1 payloadWithChat).1 =
        .ok ⟨"LLM", "english", [⟨"I am a helpful answer.", ["concept"]⟩]⟩
    ∧ ("LLM" : String) ≠ "RAG" := by
  refine ⟨?_, by decide, by decide⟩
  unfold query_rag_chunks envOneChunk
  simp only [Except.map, List.filter]
  norm_num

/-- Claim C3 (amended): every successful response carries the source label
`"LLM"`, and the knowledge retriever is never consulted, so no chunk text
enters the generation prompt. -/
theorem source_label_always_llm (env : Env) (db : ChatDB)
    (mm : List MMRecord) (payload : Payload) (resp : QueryResponseM)
    (h : (handle_user_query env db mm payload).1 = .ok resp) :
    resp.source = "LLM"
    ∧ (handle_user_query env db mm payload).2.2.ragCalls = 0 := by
  refine ⟨?_, (handle_counts env db mm payload).1⟩
  unfold handle_user_query at h
  split at h
  · simp at h
  · split at h
    · simp at h
    · simp only [Except.ok.injEq] at h
      rw [← h]

/-- Witness for C3's amended theorem on a completed concrete run. -/
theorem source_label_always_llm_witness :
    ((handle_user_query envNoChunks emptyChatDB mmC1 payloadWithChat).1 =
      .ok ⟨"LLM", "english", [⟨"I am a helpful answer.", ["concept"]⟩]⟩)
    ∧ (⟨"LLM", "english", [⟨"I am a helpful answer.", ["concept"]⟩]⟩ :
        QueryResponseM).source = "LLM" :=
  ⟨by decide,
   (source_label_always_llm envNoChunks emptyChatDB mmC1 payloadWithChat _
     (by decide)).1⟩

end JumppGuru
